import Mathlib

/-!
# Verification of the WebSocket session core of `svr-ai-chat`

Shallow embedding of the authenticated `WebSocketManager` (the session
registry, handshake gating, message dispatch, heartbeat sweep, broadcast,
addressed delivery and shutdown) together with `authenticateClient` from
`src/auth.ts`.  Side effects on the underlying transports (`ws.send`,
`ws.close`, `ws.terminate`, `ws.ping`, `wss.close`) are modelled as an
explicit effect list; external collaborators (the `cookie` parsing library,
`JSON.parse` of the dev identity, and the `runAgent` response generator)
are passed in as function parameters.
-/

namespace SvrAiChat

/-- JSON-like values, the wire payloads (`data: any` in the source). -/
inductive Json where
  | null : Json
  | str : String → Json
  | num : Int → Json
  | bool : Bool → Json
  | arr : List Json → Json
  | obj : List (String × Json) → Json

/-- Field lookup in a JSON object's association list (first match wins,
mirroring a JS object literal read). -/
def lookupField : List (String × Json) → String → Option Json
  | [], _ => none
  | (k, v) :: rest, key => if k = key then some v else lookupField rest key

/-- `j[key]` for an object, `none` otherwise. -/
def Json.getField : Json → String → Option Json
  | .obj fields, key => lookupField fields key
  | _, _ => none

/-- Whether a JSON value is a string. -/
def Json.isString : Json → Bool
  | .str _ => true
  | _ => false

/-- The uniform outbound envelope: a string `type` field and a string
`timestamp` field. -/
def hasEnvelope (j : Json) : Bool :=
  (j.getField "type").any Json.isString && (j.getField "timestamp").any Json.isString

/-- Authenticated identity (`Principal` in `src/auth.ts`). -/
structure Principal where
  userId : String
deriving Repr, DecidableEq

/-- `WebSocket.readyState` values of the `ws` library. -/
inductive ReadyState where
  | CONNECTING | OPEN | CLOSING | CLOSED
deriving Repr, DecidableEq

/-- One `WebSocketClient`: the wrapped transport (`id` models the object
identity keying the `Set`), its `readyState`, and the dynamically attached
`isAlive` flag and `principal`. -/
structure Session where
  id : Nat
  readyState : ReadyState
  isAlive : Bool
  principal : Option Principal
deriving Repr, DecidableEq

/-- The manager's `clients : Set<WebSocketClient>`, in insertion order. -/
abbrev Registry := List Session

/-- Transport-level side effects issued by the manager. -/
inductive Effect where
  | write (target : Nat) (payload : Json)
  | close (target : Nat) (code : Nat) (reason : String)
  | closeReq (target : Nat)
  | terminate (target : Nat)
  | ping (target : Nat)
  | serverClose

/-- Is a session's transport open? (`ws.readyState === WebSocket.OPEN`). -/
def isOpen (ws : Session) : Bool :=
  match ws.readyState with
  | .OPEN => true
  | _ => false

/-- `sendMessage`: serialize and write only when the transport is OPEN;
silently no-op otherwise. -/
def sendMessage (ws : Session) (data : Json) : List Effect :=
  if isOpen ws then [Effect.write ws.id data] else []

/-- The `connected` welcome frame. -/
def connectedFrame (now : String) : Json :=
  .obj [("type", .str "connected"),
        ("message", .str "Connected to AppServer WebSocket"),
        ("timestamp", .str now)]

/-- The `pong` frame. -/
def pongFrame (now : String) : Json :=
  .obj [("type", .str "pong"), ("timestamp", .str now)]

/-- The `chat_response` frame wrapping the generator's result. -/
def chatResponseFrame (data : Json) (now : String) : Json :=
  .obj [("type", .str "chat_response"), ("data", data), ("timestamp", .str now)]

/-- The `error` frame. -/
def errorFrame (error now : String) : Json :=
  .obj [("type", .str "error"), ("error", .str error), ("timestamp", .str now)]

/-- `sendError`: wrap the message in an `error` frame and send it. -/
def sendError (ws : Session) (error now : String) : List Effect :=
  sendMessage ws (errorFrame error now)

/-- Split a character list on `;` (cookie-pair separator). -/
def splitOnSemi : List Char → List (List Char)
  | [] => [[]]
  | c :: cs =>
      let rest := splitOnSemi cs
      if c = ';' then [] :: rest
      else
        match rest with
        | [] => [[c]]
        | g :: gs => (c :: g) :: gs

/-- Split a character list at the first `=`, if any. -/
def splitEq : List Char → Option (List Char × List Char)
  | [] => none
  | c :: cs =>
      if c = '=' then some ([], cs)
      else
        match splitEq cs with
        | none => none
        | some (k, v) => some (c :: k, v)

/-- Strip leading and trailing spaces. -/
def trimChars (l : List Char) : List Char :=
  ((l.dropWhile (· = ' ')).reverse.dropWhile (· = ' ')).reverse

/-- Model of the external `cookie.parse` library on plain `k=v; k2=v2`
headers: pairs split on `;`, each pair split at its first `=`, keys and
values trimmed, `=`-less fragments skipped (URL-decoding is not modelled;
the claims only use plain ASCII cookies). -/
def cookieParse (raw : String) : List (String × String) :=
  (splitOnSemi raw.toList).filterMap fun part =>
    match splitEq part with
    | none => none
    | some (k, v) => some (⟨trimChars k⟩, ⟨trimChars v⟩)

/-- `cookies[name]` on the parsed map. -/
def cookieLookup : List (String × String) → String → Option String
  | [], _ => none
  | (k, v) :: rest, name => if k = name then some v else cookieLookup rest name

/-- The process environment slice read by `src/auth.ts`. -/
structure Env where
  nodeEnv : Option String
  devUserIdentity : Option String
deriving Repr, DecidableEq

/-- `JSON.stringify({ userId: "test@test.com" })`, the hardcoded default
development principal of `src/auth.ts`. -/
def defaultPrincipalString : String := "\x7b\"userId\":\"test@test.com\"\x7d"

/-- JS `a || b` on an optional string: `b` when `a` is undefined or empty. -/
def orFalsy (o : Option String) (d : String) : String :=
  match o with
  | none => d
  | some s => if s = "" then d else s

/-- `authenticateClient` from `src/auth.ts`: in development mode return the
principal parsed from `DEV_USER_IDENTITY` (or the hardcoded default),
otherwise `null`; the `token` argument is never consulted.  `jsonParse`
models the external `JSON.parse` on the identity string. -/
def authenticateClient (jsonParse : String → Principal) (env : Env)
    (token : Option String) : Option Principal :=
  if env.nodeEnv = some "development" then
    some (jsonParse (orFalsy env.devUserIdentity defaultPrincipalString))
  else
    none

/-- Incoming handshake metadata: `incoming.headers["cookie"]`. -/
structure ConnMeta where
  cookieHeader : Option String
deriving Repr, DecidableEq

/-- The `wss.on("connection")` handler: reject with 1008 when the cookie
header is absent or empty; otherwise parse the cookies, pass
`cookies["auth_token"]` to the verifier, reject with 1008 on a `null`
principal, and on success attach the principal, set `isAlive`, add the
session to the registry and send the welcome frame.  Returns the new
registry, the transport effects, and the list of credentials passed to the
verifier (to observe how often it was called). -/
def handleConnection (verify : Option String → Option Principal)
    (registry : Registry) (ws : Session) (meta : ConnMeta) (now : String) :
    Registry × List Effect × List (Option String) :=
  let rawcookies := meta.cookieHeader.getD ""
  if rawcookies = "" then
    (registry, [Effect.close ws.id 1008 "Unauthorized"], [])
  else
    let cookies := cookieParse rawcookies
    let token := cookieLookup cookies "auth_token"
    match verify token with
    | none => (registry, [Effect.close ws.id 1008 "Unauthorized"], [token])
    | some principal =>
        let ws' := { ws with principal := some principal, isAlive := true }
        (registry ++ [ws'], sendMessage ws' (connectedFrame now), [token])

/-- Inbound `ClientMessage` after `JSON.parse`: the `chat` and `ping`
variants of the source union, plus any other `type` tag (handled by the
`default` branch); `chat` fields may be absent since the cast performs no
shape check. -/
inductive ClientMessage where
  | chat (input : Option String) (threadId : Option String)
  | ping
  | other (tag : String)
deriving Repr, DecidableEq

/-- JS falsiness of an optional string field: `undefined` or `""`. -/
def falsyOpt (o : Option String) : Bool :=
  match o with
  | none => true
  | some s => s = ""

/-- The response generator (`runAgent`): resolves with a structured result
or rejects. -/
abbrev Generator := String → String → String → Except String Json

/-- `handleMessage`: dispatch one decoded inbound message.  Returns the
transport effects and the list of `(input, userId, threadId)` arguments
passed to the generator (to observe how often it was invoked). -/
def handleMessage (gen : Generator) (ws : Session) (message : ClientMessage)
    (now : String) : List Effect × List (String × String × String) :=
  match message with
  | .chat input threadId =>
      if falsyOpt input || ws.principal.isNone || falsyOpt threadId then
        (sendError ws "Missing required fields or not authenticated" now, [])
      else
        match ws.principal with
        | none => (sendError ws "Missing required fields or not authenticated" now, [])
        | some p =>
            match gen (input.getD "") p.userId (threadId.getD "") with
            | .ok response =>
                (sendMessage ws (chatResponseFrame response now),
                 [(input.getD "", p.userId, threadId.getD "")])
            | .error _ =>
                (sendError ws "Failed to process chat message" now,
                 [(input.getD "", p.userId, threadId.getD "")])
  | .ping => (sendMessage ws (pongFrame now), [])
  | .other _ => (sendError ws "Unknown message type" now, [])

/-- Set `isAlive := true` on the session with the given transport identity
(the first step of the message handler, and the `pong` handler). -/
def markAlive (registry : Registry) (i : Nat) : Registry :=
  registry.map fun ws => if ws.id = i then { ws with isAlive := true } else ws

/-- The `ws.on("message")` handler: mark the session alive, then either
report a decode failure (`raw = none`, i.e. `JSON.parse` threw) or dispatch
the decoded message. -/
def onMessage (gen : Generator) (registry : Registry) (ws : Session)
    (raw : Option ClientMessage) (now : String) :
    Registry × List Effect × List (String × String × String) :=
  let ws' := { ws with isAlive := true }
  let registry' := markAlive registry ws.id
  match raw with
  | none => (registry', sendError ws' "Invalid message format" now, [])
  | some message => (registry', handleMessage gen ws' message now)

/-- The `ws.on("close")` / `ws.on("error")` handler: delete the session
from the registry. -/
def onClose (registry : Registry) (i : Nat) : Registry :=
  registry.filter fun ws => ws.id ≠ i

/-- One heartbeat sweep (the `setInterval` callback): terminate and remove
every session whose `isAlive` is (exactly) `false`; reset the flag and ping
the rest. -/
def sweep : Registry → Registry × List Effect
  | [] => ([], [])
  | ws :: rest =>
      let r := sweep rest
      if ws.isAlive = false then (r.1, Effect.terminate ws.id :: r.2)
      else ({ ws with isAlive := false } :: r.1, Effect.ping ws.id :: r.2)

/-- `broadcast`: write the payload to every client whose transport is OPEN. -/
def broadcast (registry : Registry) (data : Json) : List Effect :=
  registry.filterMap fun client =>
    if isOpen client then some (Effect.write client.id data) else none

/-- Does the session's principal match the given user id?
(`client.principal?.userId === userId`; `false` when no principal). -/
def principalIs (client : Session) (userId : String) : Bool :=
  match client.principal with
  | some p => p.userId = userId
  | none => false

/-- `sendToUser`: write the payload to every client whose principal matches
the user id and whose transport is OPEN. -/
def sendToUser (registry : Registry) (userId : String) (data : Json) : List Effect :=
  registry.filterMap fun client =>
    if (principalIs client userId && isOpen client) = true then some (Effect.write client.id data)
    else none

/-- The manager's mutable state relevant to shutdown: the client set and
the heartbeat timer handle (`none` = no timer running). -/
structure ManagerState where
  clients : Registry
  pingInterval : Option Nat
deriving Repr, DecidableEq

/-- `shutdown`: clear the heartbeat interval if set, request `close()` on
every client, and close the server listener.  The client set itself is not
modified here; clients leave the registry only when their transport close
events are handled. -/
def shutdown (st : ManagerState) : ManagerState × List Effect :=
  ({ clients := st.clients, pingInterval := none },
   st.clients.map (fun client => Effect.closeReq client.id) ++ [Effect.serverClose])

/-- Deliver a sequence of transport close events to the registry. -/
def processCloses (registry : Registry) (ids : List Nat) : Registry :=
  ids.foldl onClose registry

/-- The transport identity of the target of each `write` effect. -/
def writeTargets (effects : List Effect) : List Nat :=
  effects.filterMap fun e =>
    match e with
    | .write i _ => some i
    | _ => none

/-- The payload of each `write` effect. -/
def writePayloads (effects : List Effect) : List Json :=
  effects.filterMap fun e =>
    match e with
    | .write _ j => some j
    | _ => none

/-- First session with the given transport identity, if any. -/
def findById (registry : Registry) (i : Nat) : Option Session :=
  registry.find? fun ws => ws.id = i

/-! ## General lemmas about the operations -/

theorem broadcast_eq_map_filter (reg : Registry) (data : Json) :
    broadcast reg data = (reg.filter fun c => isOpen c).map fun c => Effect.write c.id data := by
  induction reg with
  | nil => rfl
  | cons c rest ih =>
      by_cases h : isOpen c <;>
        simp [broadcast, List.filterMap_cons, List.filter_cons, h] <;>
        simpa [broadcast] using ih

theorem sendToUser_eq_map_filter (reg : Registry) (userId : String) (data : Json) :
    sendToUser reg userId data =
      (reg.filter fun c => principalIs c userId && isOpen c).map fun c => Effect.write c.id data := by
  induction reg with
  | nil => rfl
  | cons c rest ih =>
      by_cases h1 : principalIs c userId = true <;> by_cases h2 : isOpen c = true <;>
        simp [sendToUser, List.filterMap_cons, List.filter_cons, h1, h2] <;>
        simpa [sendToUser] using ih

theorem writeTargets_map_write (l : Registry) (data : Json) :
    writeTargets (l.map fun c => Effect.write c.id data) = l.map Session.id := by
  induction l with
  | nil => rfl
  | cons c rest ih => simpa [writeTargets, List.filterMap_cons] using ih

theorem writePayloads_sendMessage (ws : Session) (j : Json) :
    writePayloads (sendMessage ws j) = if isOpen ws then [j] else [] := by
  by_cases h : isOpen ws <;> simp [sendMessage, writePayloads, h]

theorem processCloses_of_ids_subset :
    ∀ (ids : List Nat) (reg : Registry), (∀ ws ∈ reg, ws.id ∈ ids) → processCloses reg ids = [] := by
  intro ids
  induction ids with
  | nil =>
      intro reg h
      exact List.eq_nil_iff_forall_not_mem.mpr fun ws hws => by simpa using h ws hws
  | cons i is ih =>
      intro reg h
      have : ∀ ws ∈ onClose reg i, ws.id ∈ is := by
        intro ws hws
        rw [onClose, List.mem_filter] at hws
        have hne : ws.id ≠ i := by simpa using hws.2
        have := h ws hws.1
        simp only [List.mem_cons] at this
        exact this.resolve_left hne
      simpa [processCloses, List.foldl_cons] using ih (onClose reg i) this

/-! ## Claim theorems -/

/-- C7: for every registry state with `N` sessions of which `M` have a
non-open transport, `broadcast(F)` writes `F` exactly once to each of the
`N − M` open sessions (the effect list is exactly one write per open
session, in registry order), performs no send on any non-open session, and
raises no error. -/
theorem broadcast_completeness_and_filtering (reg : Registry) (data : Json) :
    broadcast reg data = (reg.filter fun c => isOpen c).map (fun c => Effect.write c.id data) ∧
    (broadcast reg data).length = reg.length - (reg.filter fun c => !isOpen c).length := by
  refine ⟨broadcast_eq_map_filter reg data, ?_⟩
  rw [broadcast_eq_map_filter reg data, List.length_map]
  have h := List.length_eq_length_filter_add (l := reg) (fun c => isOpen c)
  omega

/-- C8: for every userId `U` and frame `F`, `sendToUser(U, F)` writes `F`
to exactly the registry sessions whose principal's userId equals `U` and
whose transport is open (including several concurrent sessions of the same
user), and to no session whose principal differs or whose transport is not
open. -/
theorem sendToUser_addressed_delivery (reg : Registry) (userId : String) (data : Json)
    (hids : (reg.map Session.id).Nodup) :
    sendToUser reg userId data =
      (reg.filter fun c => principalIs c userId && isOpen c).map (fun c => Effect.write c.id data) ∧
    ∀ c ∈ reg, (c.id ∈ writeTargets (sendToUser reg userId data) ↔
      principalIs c userId = true ∧ isOpen c = true) := by
  refine ⟨sendToUser_eq_map_filter reg userId data, ?_⟩
  intro c hc
  rw [sendToUser_eq_map_filter reg userId data, writeTargets_map_write]
  constructor
  · intro hmem
    rcases List.mem_map.mp hmem with ⟨c', hc', hcid⟩
    rw [List.mem_filter] at hc'
    have : c' = c := List.inj_on_of_nodup_map hids hc'.1 hc hcid
    subst this
    simpa using hc'.2
  · intro hq
    refine List.mem_map.mpr ⟨c, List.mem_filter.mpr ⟨hc, ?_⟩, rfl⟩
    simp [hq.1, hq.2]

/-- Witness registry for the addressed-delivery claim: two open sessions of
`user-1`, one open session of `user-2`, one closed session of `user-1`. -/
def regW : Registry :=
  [{ id := 0, readyState := .OPEN, isAlive := true, principal := some { userId := "user-1" } },
   { id := 1, readyState := .OPEN, isAlive := true, principal := some { userId := "user-1" } },
   { id := 2, readyState := .OPEN, isAlive := true, principal := some { userId := "user-2" } },
   { id := 3, readyState := .CLOSED, isAlive := true, principal := some { userId := "user-1" } }]

/-- Witness for C8: both open sessions of `user-1` receive the frame, the
session of `user-2` and the closed session of `user-1` do not. -/
theorem sendToUser_addressed_delivery_witness :
    0 ∈ writeTargets (sendToUser regW "user-1" (Json.str "F")) ∧
    1 ∈ writeTargets (sendToUser regW "user-1" (Json.str "F")) ∧
    ¬ 2 ∈ writeTargets (sendToUser regW "user-1" (Json.str "F")) ∧
    ¬ 3 ∈ writeTargets (sendToUser regW "user-1" (Json.str "F")) := by
  have h := sendToUser_addressed_delivery regW "user-1" (Json.str "F") (by decide)
  refine ⟨?_, ?_, ?_, ?_⟩
  · exact (h.2 (regW.get ⟨0, by decide⟩) (by decide)).mpr (by decide)
  · exact (h.2 (regW.get ⟨1, by decide⟩) (by decide)).mpr (by decide)
  · intro hmem
    exact absurd ((h.2 (regW.get ⟨2, by decide⟩) (by decide)).mp hmem).1 (by decide)
  · intro hmem
    exact absurd ((h.2 (regW.get ⟨3, by decide⟩) (by decide)).mp hmem).2 (by decide)

/-- C9 (amended): shutdown stops the heartbeat timer, requests a close on
every registered session and closes the listener, and is safe to call
twice, with zero sessions, or with the timer never started; the client set
itself is unchanged when `shutdown` returns and becomes empty exactly when
the resulting transport close events have all been handled. -/
theorem shutdown_idempotent_and_quiescing (st : ManagerState) :
    (shutdown st).1.pingInterval = none ∧
    (shutdown st).1.clients = st.clients ∧
    (shutdown st).2 = st.clients.map (fun c => Effect.closeReq c.id) ++ [Effect.serverClose] ∧
    (shutdown (shutdown st).1).1 = (shutdown st).1 ∧
    processCloses (shutdown st).1.clients ((shutdown st).1.clients.map Session.id) = [] := by
  refine ⟨rfl, rfl, rfl, rfl, ?_⟩
  exact processCloses_of_ids_subset _ _ fun ws hws => List.mem_map_of_mem Session.id hws

/-- Counterexample to C9 as stated: with one registered session, the
registry is not yet empty when `shutdown` returns (the session leaves the
registry only when its transport close event is later handled). -/
theorem shutdown_registry_not_immediately_empty :
    (shutdown { clients := [{ id := 0, readyState := .OPEN, isAlive := true,
                              principal := some { userId := "u" } }],
                pingInterval := some 7 }).1.clients ≠ [] := by
  decide

theorem handleConnection_verify_none_fst (verify : Option String → Option Principal)
    (hv : ∀ t, verify t = none) (reg : Registry) (ws : Session) (meta : ConnMeta)
    (now : String) : (handleConnection verify reg ws meta now).1 = reg := by
  by_cases h : meta.cookieHeader.getD "" = "" <;> simp [handleConnection, h, hv]

/-- C4: the verifier's verdict is independent of the credential — for any
two credential values (including absent ones) `authenticateClient` returns
the same result; outside development mode it always returns `none`, so no
handshake attempt is ever admitted and a registry starting empty stays
empty across any sequence of connection attempts; in development mode it
always returns the configured development principal. -/
theorem authenticateClient_credential_independent
    (jsonParse : String → Principal) (env : Env) (t1 t2 : Option String) :
    authenticateClient jsonParse env t1 = authenticateClient jsonParse env t2 ∧
    (env.nodeEnv ≠ some "development" →
      authenticateClient jsonParse env t1 = none ∧
      (∀ (reg : Registry) (ws : Session) (meta : ConnMeta) (now : String),
        (handleConnection (authenticateClient jsonParse env) reg ws meta now).1 = reg) ∧
      (∀ attempts : List (Session × ConnMeta × String),
        attempts.foldl
          (fun r a => (handleConnection (authenticateClient jsonParse env) r a.1 a.2.1 a.2.2).1)
          [] = [])) ∧
    (env.nodeEnv = some "development" →
      authenticateClient jsonParse env t1 =
        some (jsonParse (orFalsy env.devUserIdentity defaultPrincipalString))) := by
  have hnone : env.nodeEnv ≠ some "development" → ∀ t,
      authenticateClient jsonParse env t = none := by
    intro h t
    simp [authenticateClient, h]
  refine ⟨rfl, fun h => ⟨hnone h t1, fun reg ws meta now =>
    handleConnection_verify_none_fst _ (hnone h) reg ws meta now, ?_⟩,
    fun h => by simp [authenticateClient, h]⟩
  have step : ∀ (attempts : List (Session × ConnMeta × String)) (r : Registry),
      attempts.foldl
        (fun r a => (handleConnection (authenticateClient jsonParse env) r a.1 a.2.1 a.2.2).1)
        r = r := by
    intro attempts
    induction attempts with
    | nil => intro r; rfl
    | cons a rest ih =>
        intro r
        rw [List.foldl_cons, handleConnection_verify_none_fst _ (hnone h)]
        exact ih r
  exact fun attempts => step attempts []

/-- Witness environment outside development mode. -/
def envProd : Env := { nodeEnv := some "production", devUserIdentity := none }

/-- Witness parse function for the development identity string. -/
def parseW : String → Principal := fun _ => { userId := "test@test.com" }

/-- Witness for C4: in a production environment the verdict for a present
and an absent credential coincide and are `none`, and a concrete handshake
attempt leaves an empty registry empty. -/
theorem authenticateClient_credential_independent_witness :
    authenticateClient parseW envProd (some "valid-token") =
      authenticateClient parseW envProd none ∧
    authenticateClient parseW envProd (some "valid-token") = none ∧
    (handleConnection (authenticateClient parseW envProd) []
      { id := 0, readyState := .OPEN, isAlive := false, principal := none }
      { cookieHeader := some "auth_token=valid-token" } "T").1 = [] := by
  have h := authenticateClient_credential_independent parseW envProd (some "valid-token") none
  exact ⟨h.1, (h.2.1 (by decide)).1,
    (h.2.1 (by decide)).2.1 [] { id := 0, readyState := .OPEN, isAlive := false, principal := none }
      { cookieHeader := some "auth_token=valid-token" } "T"⟩

/-- C1 (amended): only a connection attempt whose whole cookie header is
absent or empty is closed with code 1008 before any verifier call, with no
session added; when the header is nonempty the verifier is called exactly
once — also when the `auth_token` entry is absent or empty, in which case
it receives that absent or empty credential — and admission follows its
verdict. -/
theorem handshake_rejects_before_verifier_only_on_empty_header
    (verify : Option String → Option Principal) (reg : Registry) (ws : Session)
    (meta : ConnMeta) (now : String) :
    (meta.cookieHeader.getD "" = "" →
      handleConnection verify reg ws meta now =
        (reg, [Effect.close ws.id 1008 "Unauthorized"], [])) ∧
    (∀ raw, meta.cookieHeader = some raw → raw ≠ "" →
      (handleConnection verify reg ws meta now).2.2 =
        [cookieLookup (cookieParse raw) "auth_token"]) := by
  constructor
  · intro h
    simp [handleConnection, h]
  · intro raw hraw hne
    rcases hv : verify (cookieLookup (cookieParse raw) "auth_token") with _ | p <;>
      simp [handleConnection, hraw, hne, hv]

/-- Witness for C1 (amended): an absent cookie header is rejected with 1008
and no verifier call, and a header whose only entry is `foo=bar` leads to
one verifier call carrying an absent credential. -/
theorem handshake_rejects_before_verifier_only_on_empty_header_witness :
    handleConnection (fun _ => none) []
        { id := 0, readyState := .OPEN, isAlive := false, principal := none }
        { cookieHeader := none } "T" =
      ([], [Effect.close 0 1008 "Unauthorized"], []) ∧
    (handleConnection (fun _ => none) []
        { id := 0, readyState := .OPEN, isAlive := false, principal := none }
        { cookieHeader := some "foo=bar" } "T").2.2 = [none] := by
  refine ⟨?_, ?_⟩
  · exact (handshake_rejects_before_verifier_only_on_empty_header (fun _ => none) []
      { id := 0, readyState := .OPEN, isAlive := false, principal := none }
      { cookieHeader := none } "T").1 (by decide)
  · have := (handshake_rejects_before_verifier_only_on_empty_header (fun _ => none) []
      { id := 0, readyState := .OPEN, isAlive := false, principal := none }
      { cookieHeader := some "foo=bar" } "T").2 "foo=bar" rfl (by decide)
    rw [this]
    decide

/-- Counterexample to C1 as stated: the connection attempt whose cookie
header is `foo=bar` lacks the `auth_token` entry, yet the verifier (the
real `authenticateClient`, in a development environment) is called once
with the absent credential, a session is added to the registry, and the
welcome frame — not a close — is emitted. -/
theorem handshake_missing_token_entry_still_calls_verifier :
    (handleConnection
        (authenticateClient parseW { nodeEnv := some "development", devUserIdentity := none })
        [] { id := 0, readyState := .OPEN, isAlive := false, principal := none }
        { cookieHeader := some "foo=bar" } "T").2.2 = [none] ∧
    (handleConnection
        (authenticateClient parseW { nodeEnv := some "development", devUserIdentity := none })
        [] { id := 0, readyState := .OPEN, isAlive := false, principal := none }
        { cookieHeader := some "foo=bar" } "T").1 =
      [{ id := 0, readyState := .OPEN, isAlive := true,
         principal := some { userId := "test@test.com" } }] ∧
    (handleConnection
        (authenticateClient parseW { nodeEnv := some "development", devUserIdentity := none })
        [] { id := 0, readyState := .OPEN, isAlive := false, principal := none }
        { cookieHeader := some "foo=bar" } "T").2.1 =
      [Effect.write 0 (connectedFrame "T")] := by
  refine ⟨by decide, by decide, rfl⟩

/-- C5: for every connection attempt with a nonempty cookie header and an
open transport, if the verifier returns a principal then exactly one
session bound to that principal with liveness flag `true` is appended to
the registry and exactly one `connected` welcome frame is written over it;
if the verifier returns none, no session is added and the connection is
closed with code 1008 and reason "Unauthorized". -/
theorem handshake_admission_follows_verifier
    (verify : Option String → Option Principal) (reg : Registry) (ws : Session)
    (meta : ConnMeta) (now : String) (raw : String)
    (hopen : ws.readyState = .OPEN) (hraw : meta.cookieHeader = some raw) (hne : raw ≠ "") :
    (∀ p, verify (cookieLookup (cookieParse raw) "auth_token") = some p →
      handleConnection verify reg ws meta now =
        (reg ++ [{ ws with principal := some p, isAlive := true }],
         [Effect.write ws.id (connectedFrame now)],
         [cookieLookup (cookieParse raw) "auth_token"])) ∧
    (verify (cookieLookup (cookieParse raw) "auth_token") = none →
      handleConnection verify reg ws meta now =
        (reg, [Effect.close ws.id 1008 "Unauthorized"],
         [cookieLookup (cookieParse raw) "auth_token"])) := by
  constructor
  · intro p hp
    simp [handleConnection, hraw, hne, hp, sendMessage, isOpen, hopen]
  · intro hv
    simp [handleConnection, hraw, hne, hv]

/-- Witness verifier recognizing exactly the credential `valid-token`. -/
def verifyW : Option String → Option Principal :=
  fun t => if t = some "valid-token" then some { userId := "test-user" } else none

/-- Witness for C5: with the `valid-token` cookie one session for
`test-user` is registered and one welcome frame written; with a wrong
token nothing is registered and the socket is closed 1008 "Unauthorized". -/
theorem handshake_admission_follows_verifier_witness :
    handleConnection verifyW []
        { id := 0, readyState := .OPEN, isAlive := false, principal := none }
        { cookieHeader := some "auth_token=valid-token" } "T" =
      ([{ id := 0, readyState := .OPEN, isAlive := true,
          principal := some { userId := "test-user" } }],
       [Effect.write 0 (connectedFrame "T")],
       [some "valid-token"]) ∧
    handleConnection verifyW []
        { id := 0, readyState := .OPEN, isAlive := false, principal := none }
        { cookieHeader := some "auth_token=bad" } "T" =
      ([], [Effect.close 0 1008 "Unauthorized"], [some "bad"]) := by
  constructor
  · have h := handshake_admission_follows_verifier verifyW []
      { id := 0, readyState := .OPEN, isAlive := false, principal := none }
      { cookieHeader := some "auth_token=valid-token" } "T" "auth_token=valid-token"
      rfl rfl (by decide)
    have hc : cookieLookup (cookieParse "auth_token=valid-token") "auth_token" =
        some "valid-token" := by decide
    have := h.1 { userId := "test-user" } (by rw [hc]; rfl)
    rw [this, hc]
    rfl
  · have h := handshake_admission_follows_verifier verifyW []
      { id := 0, readyState := .OPEN, isAlive := false, principal := none }
      { cookieHeader := some "auth_token=bad" } "T" "auth_token=bad"
      rfl rfl (by decide)
    have hc : cookieLookup (cookieParse "auth_token=bad") "auth_token" = some "bad" := by decide
    have := h.2 (by rw [hc]; rfl)
    rw [this, hc]

theorem markAlive_map_id (reg : Registry) (i : Nat) :
    (markAlive reg i).map Session.id = reg.map Session.id := by
  unfold markAlive
  rw [List.map_map]
  apply List.map_congr_left
  intro ws _
  by_cases h : ws.id = i <;> simp [h]

theorem markAlive_mem_of_ne (reg : Registry) (i : Nat) (s : Session)
    (hs : s ∈ reg) (hne : s.id ≠ i) : s ∈ markAlive reg i := by
  have : (fun ws => if ws.id = i then { ws with isAlive := true } else ws) s = s := by
    simp [hne]
  exact this ▸ List.mem_map_of_mem _ hs

theorem markAlive_mem_self (reg : Registry) (s : Session) (hs : s ∈ reg) :
    { s with isAlive := true } ∈ markAlive reg s.id := by
  have : (fun ws => if ws.id = s.id then { ws with isAlive := true } else ws) s =
      { s with isAlive := true } := by simp
  exact this ▸ List.mem_map_of_mem _ hs

theorem onMessage_fst (gen : Generator) (reg : Registry) (ws : Session)
    (raw : Option ClientMessage) (now : String) :
    (onMessage gen reg ws raw now).1 = markAlive reg ws.id := by
  cases raw <;> rfl

/-- C3 (amended): for an inbound chat message, if `input` is missing or
empty, or `threadId` is missing or empty, or the session carries no
principal, exactly one error frame "Missing required fields or not
authenticated" is written to the session and the generator is not invoked;
otherwise the generator is invoked exactly once with
`(input, principal.userId, threadId)` and on success exactly one
`chat_response` frame carrying its result is written to the originating
session and to no other. -/
theorem chat_dispatch_validation_and_response
    (gen : Generator) (ws : Session) (input threadId : Option String) (now : String)
    (hopen : ws.readyState = .OPEN) :
    ((falsyOpt input || ws.principal.isNone || falsyOpt threadId) = true →
      handleMessage gen ws (.chat input threadId) now =
        ([Effect.write ws.id (errorFrame "Missing required fields or not authenticated" now)],
         [])) ∧
    (∀ p, ws.principal = some p → falsyOpt input = false → falsyOpt threadId = false →
      (handleMessage gen ws (.chat input threadId) now).2 =
        [(input.getD "", p.userId, threadId.getD "")] ∧
      ∀ r, gen (input.getD "") p.userId (threadId.getD "") = Except.ok r →
        (handleMessage gen ws (.chat input threadId) now).1 =
          [Effect.write ws.id (chatResponseFrame r now)]) := by
  constructor
  · intro h
    simp [handleMessage, h, sendError, sendMessage, isOpen, hopen]
  · intro p hp hi ht
    have hcond : (falsyOpt input || ws.principal.isNone || falsyOpt threadId) = false := by
      simp [hi, ht, hp]
    constructor
    · cases hgen : gen (input.getD "") p.userId (threadId.getD "") with
      | ok r => simp [handleMessage, hcond, hp, hi, ht, hgen]
      | error e => simp [handleMessage, hcond, hp, hi, ht, hgen]
    · intro r hgen
      simp [handleMessage, hcond, hp, hi, ht, hgen, sendMessage, isOpen, hopen]

/-- Witness for C3 (amended): a fully valid chat message triggers exactly
one generator call and one `chat_response` write to the originating
session; a chat message missing its input gets exactly the error frame and
no generator call. -/
theorem chat_dispatch_validation_and_response_witness :
    (handleMessage (fun _ _ _ => Except.ok (Json.str "Hello, human!"))
        { id := 0, readyState := .OPEN, isAlive := true, principal := some { userId := "test-user" } }
        (.chat (some "Hello, AI!") (some "thread-123")) "T").2 =
      [("Hello, AI!", "test-user", "thread-123")] ∧
    (handleMessage (fun _ _ _ => Except.ok (Json.str "Hello, human!"))
        { id := 0, readyState := .OPEN, isAlive := true, principal := some { userId := "test-user" } }
        (.chat (some "Hello, AI!") (some "thread-123")) "T").1 =
      [Effect.write 0 (chatResponseFrame (Json.str "Hello, human!") "T")] ∧
    handleMessage (fun _ _ _ => Except.ok (Json.str "Hello, human!"))
        { id := 0, readyState := .OPEN, isAlive := true, principal := some { userId := "test-user" } }
        (.chat none (some "thread-123")) "T" =
      ([Effect.write 0 (errorFrame "Missing required fields or not authenticated" "T")], []) := by
  have h := chat_dispatch_validation_and_response
    (fun _ _ _ => Except.ok (Json.str "Hello, human!"))
    { id := 0, readyState := .OPEN, isAlive := true, principal := some { userId := "test-user" } }
    (some "Hello, AI!") (some "thread-123") "T" rfl
  have h2 := chat_dispatch_validation_and_response
    (fun _ _ _ => Except.ok (Json.str "Hello, human!"))
    { id := 0, readyState := .OPEN, isAlive := true, principal := some { userId := "test-user" } }
    none (some "thread-123") "T" rfl
  refine ⟨(h.2 { userId := "test-user" } rfl (by decide) (by decide)).1,
    (h.2 { userId := "test-user" } rfl (by decide) (by decide)).2 _ rfl,
    h2.1 (by decide)⟩

/-- Counterexample to C3 as stated: a chat message with nonempty input, a
present principal and a present-but-empty `threadId` falls in the claim's
"otherwise" branch, yet the code invokes the generator zero times and
writes the missing-fields error frame instead. -/
theorem chat_empty_threadId_rejected_without_generator :
    (handleMessage (fun _ _ _ => Except.ok (Json.str "r"))
        { id := 0, readyState := .OPEN, isAlive := true, principal := some { userId := "u" } }
        (.chat (some "Hello, AI!") (some "")) "T").2 = [] ∧
    (handleMessage (fun _ _ _ => Except.ok (Json.str "r"))
        { id := 0, readyState := .OPEN, isAlive := true, principal := some { userId := "u" } }
        (.chat (some "Hello, AI!") (some "")) "T").1 =
      [Effect.write 0 (errorFrame "Missing required fields or not authenticated" "T")] :=
  ⟨by decide, rfl⟩

/-- A message-handling outcome is error-only and session-local: exactly one
error frame written to the originating session, identical registry
membership, and every other session untouched. -/
def errorOnly (reg : Registry) (ws : Session) (now m : String)
    (result : Registry × List Effect × List (String × String × String)) : Prop :=
  result.2.1 = [Effect.write ws.id (errorFrame m now)] ∧
  result.1.map Session.id = reg.map Session.id ∧
  ∀ s ∈ reg, s.id ≠ ws.id → s ∈ result.1

/-- C6: each message-level failure — decode failure, unknown type tag,
chat validation failure, generator rejection — produces exactly one error
frame written to the originating session only; the session is not closed
or removed, registry membership is unchanged, and every other session is
untouched. -/
theorem message_errors_are_session_local
    (gen : Generator) (reg : Registry) (ws : Session) (now tag : String)
    (input threadId : Option String) (hopen : ws.readyState = .OPEN) :
    errorOnly reg ws now "Invalid message format" (onMessage gen reg ws none now) ∧
    errorOnly reg ws now "Unknown message type"
      (onMessage gen reg ws (some (.other tag)) now) ∧
    ((falsyOpt input || ws.principal.isNone || falsyOpt threadId) = true →
      errorOnly reg ws now "Missing required fields or not authenticated"
        (onMessage gen reg ws (some (.chat input threadId)) now)) ∧
    (∀ p e, ws.principal = some p → falsyOpt input = false → falsyOpt threadId = false →
      gen (input.getD "") p.userId (threadId.getD "") = Except.error e →
      errorOnly reg ws now "Failed to process chat message"
        (onMessage gen reg ws (some (.chat input threadId)) now)) := by
  have hlocal : ∀ raw, (∀ s ∈ reg, s.id ≠ ws.id → s ∈ (onMessage gen reg ws raw now).1) := by
    intro raw s hs hne
    rw [onMessage_fst]
    exact markAlive_mem_of_ne reg ws.id s hs hne
  have hmap : ∀ raw, (onMessage gen reg ws raw now).1.map Session.id = reg.map Session.id := by
    intro raw
    rw [onMessage_fst]
    exact markAlive_map_id reg ws.id
  refine ⟨⟨?_, hmap none, hlocal none⟩, ⟨?_, hmap _, hlocal _⟩, ?_, ?_⟩
  · simp [onMessage, sendError, sendMessage, isOpen, hopen]
  · simp [onMessage, handleMessage, sendError, sendMessage, isOpen, hopen]
  · intro h
    refine ⟨?_, hmap _, hlocal _⟩
    simp [onMessage, handleMessage, h, sendError, sendMessage, isOpen, hopen]
  · intro p e hp hi ht hgen
    refine ⟨?_, hmap _, hlocal _⟩
    have hcond : (falsyOpt input || falsyOpt threadId) = false := by simp [hi, ht]
    simp [onMessage, handleMessage, hi, ht, hp, hgen, sendError, sendMessage, isOpen, hopen]

/-- Witness for C6: with two registered sessions, a decode failure on the
first produces exactly one error frame addressed to it, and the second
session is still present in the resulting registry. -/
theorem message_errors_are_session_local_witness :
    (onMessage (fun _ _ _ => Except.error "boom")
        [{ id := 0, readyState := .OPEN, isAlive := true, principal := some { userId := "a" } },
         { id := 1, readyState := .OPEN, isAlive := true, principal := some { userId := "b" } }]
        { id := 0, readyState := .OPEN, isAlive := true, principal := some { userId := "a" } }
        none "T").2.1 =
      [Effect.write 0 (errorFrame "Invalid message format" "T")] ∧
    { id := 1, readyState := .OPEN, isAlive := true, principal := some { userId := "b" } } ∈
      (onMessage (fun _ _ _ => Except.error "boom")
        [{ id := 0, readyState := .OPEN, isAlive := true, principal := some { userId := "a" } },
         { id := 1, readyState := .OPEN, isAlive := true, principal := some { userId := "b" } }]
        { id := 0, readyState := .OPEN, isAlive := true, principal := some { userId := "a" } }
        none "T").1 := by
  have h := message_errors_are_session_local (fun _ _ _ => Except.error "boom")
    [{ id := 0, readyState := .OPEN, isAlive := true, principal := some { userId := "a" } },
     { id := 1, readyState := .OPEN, isAlive := true, principal := some { userId := "b" } }]
    { id := 0, readyState := .OPEN, isAlive := true, principal := some { userId := "a" } }
    "T" "unknown" none none rfl
  exact ⟨h.1.1, h.1.2.2 _ (by decide) (by decide)⟩

/-- A payload carries the uniform envelope with the given timestamp. -/
def stampedEnvelope (now : String) (j : Json) : Prop :=
  hasEnvelope j = true ∧ j.getField "timestamp" = some (Json.str now)

theorem stampedEnvelope_connectedFrame (now : String) :
    stampedEnvelope now (connectedFrame now) := ⟨rfl, rfl⟩

theorem stampedEnvelope_pongFrame (now : String) :
    stampedEnvelope now (pongFrame now) := ⟨rfl, rfl⟩

theorem stampedEnvelope_errorFrame (m now : String) :
    stampedEnvelope now (errorFrame m now) := ⟨rfl, rfl⟩

theorem stampedEnvelope_chatResponseFrame (r : Json) (now : String) :
    stampedEnvelope now (chatResponseFrame r now) := ⟨rfl, rfl⟩

theorem mem_writePayloads_sendMessage {ws : Session} {j j' : Json}
    (h : j' ∈ writePayloads (sendMessage ws j)) : j' = j := by
  by_cases ho : isOpen ws <;> simp [sendMessage, writePayloads, ho] at h
  exact h

theorem writePayloads_sweep (reg : Registry) : writePayloads (sweep reg).2 = [] := by
  induction reg with
  | nil => rfl
  | cons c rest ih => cases hc : c.isAlive <;> simpa [sweep, hc, writePayloads] using ih

theorem writePayloads_shutdown (st : ManagerState) : writePayloads (shutdown st).2 = [] := by
  show writePayloads (st.clients.map (fun c => Effect.closeReq c.id) ++ [Effect.serverClose]) = []
  induction st.clients with
  | nil => rfl
  | cons c rest ih => simpa [writePayloads] using ih

/-- C10 (amended): every frame the core constructs itself — the
`connected`, `chat_response`, `pong` and `error` frames emitted by the
connection and message handlers — carries the uniform envelope (a string
`type` field and a string `timestamp` field holding the generation
timestamp), and the heartbeat sweep and shutdown write no frames at all;
`broadcast` and `sendToUser`, however, forward their caller-supplied
payload verbatim without enforcing the envelope. -/
theorem core_constructed_frames_carry_envelope
    (verify : Option String → Option Principal) (gen : Generator) (reg : Registry)
    (ws : Session) (meta : ConnMeta) (raw : Option ClientMessage) (now : String)
    (st : ManagerState) :
    (∀ j ∈ writePayloads (handleConnection verify reg ws meta now).2.1,
      stampedEnvelope now j) ∧
    (∀ j ∈ writePayloads (onMessage gen reg ws raw now).2.1, stampedEnvelope now j) ∧
    writePayloads (sweep reg).2 = [] ∧
    writePayloads (shutdown st).2 = [] := by
  refine ⟨?_, ?_, writePayloads_sweep reg, writePayloads_shutdown st⟩
  · intro j hj
    by_cases h : meta.cookieHeader.getD "" = ""
    · simp [handleConnection, h, writePayloads] at hj
    · rcases hv : verify (cookieLookup (cookieParse (meta.cookieHeader.getD "")) "auth_token")
        with _ | p
      · simp [handleConnection, h, hv, writePayloads] at hj
      · have hj' : j ∈ writePayloads (sendMessage
            { ws with principal := some p, isAlive := true } (connectedFrame now)) := by
          simpa [handleConnection, h, hv] using hj
        rw [mem_writePayloads_sendMessage hj']
        exact stampedEnvelope_connectedFrame now
  · intro j hj
    rcases raw with _ | message
    · have hj' : j ∈ writePayloads (sendMessage { ws with isAlive := true }
          (errorFrame "Invalid message format" now)) := by
        simpa [onMessage, sendError] using hj
      rw [mem_writePayloads_sendMessage hj']
      exact stampedEnvelope_errorFrame _ now
    · rcases message with ⟨input, threadId⟩ | _ | tag
      · by_cases hc : (falsyOpt input || ws.principal.isNone || falsyOpt threadId) = true
        · have hj' : j ∈ writePayloads (sendMessage { ws with isAlive := true }
              (errorFrame "Missing required fields or not authenticated" now)) := by
            simpa [onMessage, handleMessage, hc, sendError] using hj
          rw [mem_writePayloads_sendMessage hj']
          exact stampedEnvelope_errorFrame _ now
        · simp only [Bool.or_eq_true, not_or, Bool.not_eq_true] at hc
          rcases hp : ws.principal with _ | p
          · exact absurd hc.1.2 (by simp [hp])
          · rcases hgen : gen (input.getD "") p.userId (threadId.getD "") with e | r
            · have hj' : j ∈ writePayloads (sendMessage { ws with isAlive := true }
                  (errorFrame "Failed to process chat message" now)) := by
                simpa [onMessage, handleMessage, hc.1.1, hc.2, hp, hgen, sendError] using hj
              rw [mem_writePayloads_sendMessage hj']
              exact stampedEnvelope_errorFrame _ now
            · have hj' : j ∈ writePayloads (sendMessage { ws with isAlive := true }
                  (chatResponseFrame r now)) := by
                simpa [onMessage, handleMessage, hc.1.1, hc.2, hp, hgen] using hj
              rw [mem_writePayloads_sendMessage hj']
              exact stampedEnvelope_chatResponseFrame r now
      · have hj' : j ∈ writePayloads (sendMessage { ws with isAlive := true }
            (pongFrame now)) := by
          simpa [onMessage, handleMessage] using hj
        rw [mem_writePayloads_sendMessage hj']
        exact stampedEnvelope_pongFrame now
      · have hj' : j ∈ writePayloads (sendMessage { ws with isAlive := true }
            (errorFrame "Unknown message type" now)) := by
          simpa [onMessage, handleMessage, sendError] using hj
        rw [mem_writePayloads_sendMessage hj']
        exact stampedEnvelope_errorFrame _ now

/-- Witness for C10 (amended): the welcome frame written by a concrete
successful handshake and the pong frame written for a concrete ping both
carry the stamped envelope. -/
theorem core_constructed_frames_carry_envelope_witness :
    stampedEnvelope "T" (connectedFrame "T") ∧ stampedEnvelope "T" (pongFrame "T") := by
  have h := core_constructed_frames_carry_envelope verifyW
    (fun _ _ _ => Except.ok (Json.str "r")) []
    { id := 0, readyState := .OPEN, isAlive := true, principal := some { userId := "test-user" } }
    { cookieHeader := some "auth_token=valid-token" } (some .ping) "T"
    { clients := [], pingInterval := none }
  refine ⟨h.1 (connectedFrame "T") ?_, h.2.1 (pongFrame "T") ?_⟩
  · show connectedFrame "T" ∈ [connectedFrame "T"]
    exact List.mem_singleton.mpr rfl
  · show pongFrame "T" ∈ [pongFrame "T"]
    exact List.mem_singleton.mpr rfl

/-- Counterexample to C10 as stated: `broadcast` delivers the
caller-supplied payload `{message:"test"}` (as the repository's own tests
do) to an open session unchanged, and that frame carries neither `type`
nor `timestamp`, so not every frame delivered via broadcast carries the
envelope. -/
theorem broadcast_payload_without_envelope :
    broadcast [{ id := 0, readyState := .OPEN, isAlive := true,
                 principal := some { userId := "u" } }]
        (Json.obj [("message", Json.str "test")]) =
      [Effect.write 0 (Json.obj [("message", Json.str "test")])] ∧
    hasEnvelope (Json.obj [("message", Json.str "test")]) = false :=
  ⟨rfl, rfl⟩

theorem sweep_fst (reg : Registry) :
    (sweep reg).1 = (reg.filter fun c => c.isAlive).map fun c => { c with isAlive := false } := by
  induction reg with
  | nil => rfl
  | cons c rest ih => cases hc : c.isAlive <;> simp [sweep, List.filter_cons, hc, ih]

theorem sweep_snd (reg : Registry) :
    (sweep reg).2 =
      reg.map fun c => if c.isAlive then Effect.ping c.id else Effect.terminate c.id := by
  induction reg with
  | nil => rfl
  | cons c rest ih => cases hc : c.isAlive <;> simp [sweep, hc, ih]

theorem findById_eq_some_of_nodup (reg : Registry) (s : Session)
    (hids : (reg.map Session.id).Nodup) (hs : s ∈ reg) : findById reg s.id = some s := by
  induction reg with
  | nil => cases hs
  | cons c rest ih =>
      rw [List.map_cons, List.nodup_cons] at hids
      rcases List.mem_cons.mp hs with rfl | hs'
      · apply List.find?_cons_of_pos
        simp
      · have hne : ¬ c.id = s.id := fun he =>
          hids.1 (he ▸ List.mem_map_of_mem Session.id hs')
        rw [findById, List.find?_cons_of_neg _ (by simpa using hne)]
        exact ih hids.2 hs'

theorem findById_eq_none_of_forall (reg : Registry) (i : Nat)
    (h : ∀ s ∈ reg, s.id ≠ i) : findById reg i = none := by
  apply List.find?_eq_none.mpr
  intro s hs
  simpa using h s hs

theorem sweep_ids (reg : Registry) :
    (sweep reg).1.map Session.id = (reg.filter fun c => c.isAlive).map Session.id := by
  rw [sweep_fst, List.map_map]
  exact List.map_congr_left fun c _ => rfl

theorem sweep_ids_nodup (reg : Registry) (hids : (reg.map Session.id).Nodup) :
    ((sweep reg).1.map Session.id).Nodup := by
  rw [sweep_ids]
  exact hids.sublist ((List.filter_sublist reg).map Session.id)

theorem sweep_keeps_alive (reg : Registry) (s : Session)
    (hids : (reg.map Session.id).Nodup) (hs : s ∈ reg) (halive : s.isAlive = true) :
    findById (sweep reg).1 s.id = some { s with isAlive := false } := by
  have hmem : { s with isAlive := false } ∈ (sweep reg).1 := by
    rw [sweep_fst]
    exact List.mem_map_of_mem _ (List.mem_filter.mpr ⟨hs, halive⟩)
  exact findById_eq_some_of_nodup (sweep reg).1 { s with isAlive := false }
    (sweep_ids_nodup reg hids) hmem

theorem sweep_drops_dead (reg : Registry) (s : Session)
    (hids : (reg.map Session.id).Nodup) (hs : s ∈ reg) (hdead : s.isAlive = false) :
    findById (sweep reg).1 s.id = none := by
  apply findById_eq_none_of_forall
  intro c hc
  rw [sweep_fst] at hc
  rcases List.mem_map.mp hc with ⟨c', hc', rfl⟩
  rw [List.mem_filter] at hc'
  intro he
  have : c' = s := List.inj_on_of_nodup_map hids hc'.1 hs he
  rw [this] at hc'
  rw [hdead] at hc'
  exact Bool.false_ne_true hc'.2

/-- C2: the heartbeat sweep evicts a session exactly when its liveness flag
is false at the sweep; a session with any activity since the previous sweep
(flag true) is never evicted — it is pinged with its flag reset — so a
completely silent session survives the first sweep and is removed at the
second, while a session marked alive between the two sweeps survives the
second as well. -/
theorem heartbeat_two_sweep_eviction (reg : Registry) (s : Session)
    (hids : (reg.map Session.id).Nodup) (hs : s ∈ reg) :
    (s.isAlive = true →
      findById (sweep reg).1 s.id = some { s with isAlive := false } ∧
      Effect.terminate s.id ∉ (sweep reg).2 ∧
      findById (sweep (sweep reg).1).1 s.id = none ∧
      findById (sweep (markAlive (sweep reg).1 s.id)).1 s.id =
        some { s with isAlive := false }) ∧
    (s.isAlive = false →
      findById (sweep reg).1 s.id = none ∧
      Effect.terminate s.id ∈ (sweep reg).2) := by
  constructor
  · intro halive
    have hmem1 : { s with isAlive := false } ∈ (sweep reg).1 := by
      rw [sweep_fst]
      exact List.mem_map_of_mem _ (List.mem_filter.mpr ⟨hs, halive⟩)
    have hnodup1 := sweep_ids_nodup reg hids
    refine ⟨sweep_keeps_alive reg s hids hs halive, ?_, ?_, ?_⟩
    · rw [sweep_snd]
      intro hmem
      rcases List.mem_map.mp hmem with ⟨c, hc, he⟩
      by_cases hca : c.isAlive = true
      · rw [if_pos hca] at he
        cases he
      · rw [if_neg hca] at he
        have hcid : c.id = s.id := by injection he
        have : c = s := List.inj_on_of_nodup_map hids hc hs hcid
        exact hca (this ▸ halive)
    · exact sweep_drops_dead (sweep reg).1 { s with isAlive := false } hnodup1 hmem1 rfl
    · have hmem2 : { s with isAlive := true } ∈ markAlive (sweep reg).1 s.id :=
        markAlive_mem_self (sweep reg).1 { s with isAlive := false } hmem1
      have hnodup2 : ((markAlive (sweep reg).1 s.id).map Session.id).Nodup := by
        rw [markAlive_map_id]
        exact hnodup1
      exact sweep_keeps_alive (markAlive (sweep reg).1 s.id) { s with isAlive := true }
        hnodup2 hmem2 rfl
  · intro hdead
    refine ⟨sweep_drops_dead reg s hids hs hdead, ?_⟩
    rw [sweep_snd]
    have : (fun c => if c.isAlive then Effect.ping c.id else Effect.terminate c.id) s =
        Effect.terminate s.id := by
      simp only [hdead]
      rfl
    exact this ▸ List.mem_map_of_mem _ hs

/-- Witness for C2: in a registry with an active session (id 0) and a
silent one (id 1), the first sweep keeps session 0 (flag reset) and evicts
session 1; a second sweep with no intervening activity evicts session 0,
while marking it alive between the sweeps preserves it. -/
theorem heartbeat_two_sweep_eviction_witness :
    findById (sweep [{ id := 0, readyState := .OPEN, isAlive := true,
                       principal := some { userId := "a" } },
                     { id := 1, readyState := .OPEN, isAlive := false,
                       principal := some { userId := "b" } }]).1 0 =
      some { id := 0, readyState := .OPEN, isAlive := false,
             principal := some { userId := "a" } } ∧
    findById (sweep [{ id := 0, readyState := .OPEN, isAlive := true,
                       principal := some { userId := "a" } },
                     { id := 1, readyState := .OPEN, isAlive := false,
                       principal := some { userId := "b" } }]).1 1 = none ∧
    findById (sweep (sweep [{ id := 0, readyState := .OPEN, isAlive := true,
                              principal := some { userId := "a" } },
                            { id := 1, readyState := .OPEN, isAlive := false,
                              principal := some { userId := "b" } }]).1).1 0 = none ∧
    findById (sweep (markAlive (sweep
        [{ id := 0, readyState := .OPEN, isAlive := true,
           principal := some { userId := "a" } },
         { id := 1, readyState := .OPEN, isAlive := false,
           principal := some { userId := "b" } }]).1 0)).1 0 =
      some { id := 0, readyState := .OPEN, isAlive := false,
             principal := some { userId := "a" } } := by
  have h0 := heartbeat_two_sweep_eviction
    [{ id := 0, readyState := .OPEN, isAlive := true, principal := some { userId := "a" } },
     { id := 1, readyState := .OPEN, isAlive := false, principal := some { userId := "b" } }]
    { id := 0, readyState := .OPEN, isAlive := true, principal := some { userId := "a" } }
    (by decide) (by decide)
  have h1 := heartbeat_two_sweep_eviction
    [{ id := 0, readyState := .OPEN, isAlive := true, principal := some { userId := "a" } },
     { id := 1, readyState := .OPEN, isAlive := false, principal := some { userId := "b" } }]
    { id := 1, readyState := .OPEN, isAlive := false, principal := some { userId := "b" } }
    (by decide) (by decide)
  exact ⟨(h0.1 rfl).1, (h1.2 rfl).1, (h0.1 rfl).2.2.1, (h0.1 rfl).2.2.2⟩

end SvrAiChat
